import Mathlib

/-!
Verification of the template-resolution and mapping engine of
`server.py` (Dynamic_Metadata_form).

The Python source is shallowly embedded: JSON-shaped Python values become
the inductive `JVal`, every pure helper becomes a computable Lean
function, and the places where the Python code can raise an exception are
modelled with `Except String`: attribute access such as `.get` on a
non-dict value, subscripting, the `in` operator on a non-container, and
`int()` applied to an `isdigit`-true string that contains a non-decimal
digit character (CPython's `str.isdigit` accepts characters of
Numeric_Type Digit such as the superscript two, which `int()` then
rejects with `ValueError`).  A `JVal.null` result of path resolution
plays the role of Python `None`, which the source uses both for the JSON
value `null` and for "absent" (`dict.get` returns `None` in both cases).

The decimal-digit and digit-character tables below are generated from
the runtime the program runs on (CPython 3.11, Unicode 14): `ndZeros`
lists the first code point of every run of ten Unicode Nd decimal digits
(the characters `int()` accepts, each with value `code - zero`), and
`digitOnlyRanges` lists the code points for which `str.isdigit` is true
although the character is not a decimal digit.

Numbers are modelled as integers (`Int`); none of the verified claims
depends on float formatting.  `str.upper` and `str.strip` are modelled
by their ASCII behaviour, which no claim exercises beyond ASCII.
-/

/-- A JSON-shaped Python value: `None`, `bool`, `int`, `str`, `list`, `dict`
(with string keys, in insertion order). -/
inductive JVal where
  | null
  | bool (b : Bool)
  | int (n : Int)
  | str (s : String)
  | arr (xs : List JVal)
  | obj (kvs : List (String × JVal))

/-- Python dictionary lookup (`d[k]` when present): first binding wins.
Python dicts cannot contain duplicate keys, so on faithful inputs the
choice does not matter. -/
def jGet (kvs : List (String × JVal)) (k : String) : Option JVal :=
  (kvs.find? (fun p => p.1 = k)).map (fun p => p.2)

/-- Python `dict.get(k, default)`. -/
def jGetD (kvs : List (String × JVal)) (k : String) (d : JVal) : JVal :=
  (jGet kvs k).getD d

/-- Python truthiness of a JSON-shaped value (`bool(v)`). -/
def pyTruthy : JVal → Bool
  | .null => false
  | .bool b => b
  | .int n => n != 0
  | .str s => s ≠ ""
  | .arr xs => ¬ xs.isEmpty
  | .obj kvs => ¬ kvs.isEmpty

mutual

/-- Python `repr()` of a JSON-shaped value.  String `repr` is modelled
with plain single quotes (no escaping), the ASCII common case. -/
def pyRepr : JVal → String
  | .null => "None"
  | .bool true => "True"
  | .bool false => "False"
  | .int n => toString n
  | .str s => "\x27" ++ s ++ "\x27"
  | .arr xs => "[" ++ pyReprList xs ++ "]"
  | .obj kvs => "\x7b" ++ pyReprObj kvs ++ "\x7d"

/-- Comma-joined `repr` of list elements. -/
def pyReprList : List JVal → String
  | [] => ""
  | [x] => pyRepr x
  | x :: rest => pyRepr x ++ ", " ++ pyReprList rest

/-- Comma-joined `repr` of dict entries. -/
def pyReprObj : List (String × JVal) → String
  | [] => ""
  | [(k, v)] => "\x27" ++ k ++ "\x27: " ++ pyRepr v
  | (k, v) :: rest => "\x27" ++ k ++ "\x27: " ++ pyRepr v ++ ", " ++ pyReprObj rest

end

/-- Python `str()` of a JSON-shaped value: strings pass through unquoted,
containers fall back to `repr` of their elements, as CPython does. -/
def pyStr : JVal → String
  | .str s => s
  | v => pyRepr v

/-- Python `str.upper()`, ASCII model. -/
def pyUpper (s : String) : String :=
  String.mk (s.toList.map Char.toUpper)

/-- The character class stripped by Python `str.strip()` (ASCII part). -/
def isPySpace (c : Char) : Bool :=
  c = ' ' ∨ c = '\t' ∨ c = '\n' ∨ c = '\r' ∨ c = '\x0b' ∨ c = '\x0c'

/-- Python `str.strip()` on a character list. -/
def pyStrip (cs : List Char) : List Char :=
  ((cs.dropWhile isPySpace).reverse.dropWhile isPySpace).reverse

/-- Substring test: does `cs` contain `pat` as a contiguous run?
Models the Python `in` operator on strings. -/
def hasSub (pat : List Char) : List Char → Bool
  | [] => pat.isEmpty
  | c :: rest => pat.isPrefixOf (c :: rest) || hasSub pat rest

/-- Substring test on `String`, models Python `pat in s`. -/
def strContains (s pat : String) : Bool :=
  hasSub pat.toList s.toList

/-- Python `s.split(".")`: split on a single dot, keeping empty chunks. -/
def splitDot : List Char → List (List Char)
  | [] => [[]]
  | c :: rest =>
    if c = '.' then [] :: splitDot rest
    else
      match splitDot rest with
      | chunk :: more => (c :: chunk) :: more
      | [] => [[c]]

/-- Python `s.split("||")`: split on the two-character separator,
leftmost and non-overlapping, keeping empty chunks. -/
def splitBars : List Char → List (List Char)
  | [] => [[]]
  | [c] => [[c]]
  | c :: d :: rest =>
    if c = '|' ∧ d = '|' then [] :: splitBars rest
    else
      match splitBars (d :: rest) with
      | chunk :: more => (c :: chunk) :: more
      | [] => [[c]]

/-- Python `==` between a JSON-shaped value and a string literal: true
exactly when the value is that string (no cross-type coercion applies
against `str`). -/
def jvalEqStr (v : JVal) (s : String) : Bool :=
  match v with
  | .str t => t = s
  | _ => false

/-- Python `s.startswith(pre)`, as a list computation. -/
def pyStartsWith (s pre : String) : Bool :=
  pre.toList.isPrefixOf s.toList

/-- First code point of every run of ten Unicode Nd decimal digits
(Unicode 14 / CPython 3.11): the characters `int()` accepts, with value
`code - zero`. -/
def ndZeros : List Nat :=
  [48, 1632, 1776, 1984, 2406, 2534, 2662, 2790, 2918, 3046, 3174, 3302,
   3430, 3558, 3664, 3792, 3872, 4160, 4240, 6112, 6160, 6470, 6608,
   6784, 6800, 6992, 7088, 7232, 7248, 42528, 43216, 43264, 43472,
   43504, 43600, 44016, 65296, 66720, 68912, 69734, 69872, 69942, 70096,
   70384, 70736, 70864, 71248, 71360, 71472, 71904, 72016, 72784, 73040,
   73120, 92768, 92864, 93008, 120782, 120792, 120802, 120812, 120822,
   123200, 123632, 125264, 130032]

/-- Decimal value of a Unicode Nd digit character, `none` otherwise:
exactly the single characters `int()` accepts. -/
def decDigitVal? (c : Char) : Option Nat :=
  (ndZeros.find? (fun z => decide (z ≤ c.toNat) && decide (c.toNat ≤ z + 9))).map
    (fun z => c.toNat - z)

/-- Code-point ranges for which `str.isdigit` is true although the
character is not an Nd decimal digit (superscripts, circled digits,
etc.; Unicode 14 / CPython 3.11): on these, `int()` raises
`ValueError`. -/
def digitOnlyRanges : List (Nat × Nat) :=
  [(178, 179), (185, 185), (4969, 4977), (6618, 6618), (8304, 8304),
   (8308, 8313), (8320, 8329), (9312, 9320), (9332, 9340), (9352, 9360),
   (9450, 9450), (9461, 9469), (9471, 9471), (10102, 10110),
   (10112, 10120), (10122, 10130), (68160, 68163), (69216, 69224),
   (69714, 69722), (127232, 127242)]

/-- Python `c.isdigit()` for a single character: Nd decimal digits plus
the digit-only ranges. -/
def pyIsDigit (c : Char) : Bool :=
  (decDigitVal? c).isSome ||
  digitOnlyRanges.any (fun r => decide (r.1 ≤ c.toNat) && decide (c.toNat ≤ r.2))

/-- The accumulator loop of `int()` over digit characters: fails (and
the caller raises `ValueError`) as soon as a character is not an Nd
decimal digit. -/
def pyIntOfDigitsAux : Nat → List Char → Option Nat
  | acc, [] => some acc
  | acc, c :: rest =>
    match decDigitVal? c with
    | some d => pyIntOfDigitsAux (acc * 10 + d) rest
    | none => none

/-- Python `int(s)` restricted to `isdigit`-true strings: succeeds with
the base-10 value exactly when every character is an Nd decimal digit
(of any script). -/
def pyIntOfDigits (cs : List Char) : Option Nat :=
  pyIntOfDigitsAux 0 cs

/-- Test for the index-segment shape of `_resolve_path`:
`part.startswith("[") and part.endswith("]")`. -/
def bracketForm (part : List Char) : Bool :=
  (match part with
   | '[' :: _ => true
   | _ => false) &&
  (match part.getLast? with
   | some ']' => true
   | _ => false)

/-! ## TemplateResolver (`server.py`, class `TemplateResolver`) -/

/-- The segment walk of `TemplateResolver._resolve_path` (the `for part
in parts` loop): consume one dotted segment at a time.  `JVal.null`
plays the role of Python `None`, i.e. both JSON `null` and "absent".
On an index segment the source checks `idx_str.isdigit()` and then runs
`int(idx_str)` before the `isinstance(current, list)` test, so an
`isdigit`-true segment containing a non-decimal digit character raises
`ValueError` for every non-`None` current value. -/
def walk : List (List Char) → JVal → Except String JVal
  | [], current => .ok current
  | part :: rest, current =>
    match current with
    | .null => .ok .null
    | cur =>
      if bracketForm part then
        -- index segment "[N]": idx_str = part[1:-1]
        let inner := (part.drop 1).dropLast
        if inner.isEmpty then .ok .null
        else if inner.all pyIsDigit then
          match pyIntOfDigits inner with
          | some idx =>
            match cur with
            | .arr xs =>
              match xs.get? idx with
              | some v => walk rest v
              | none => .ok .null
            | _ => .ok .null
          | none => .error "ValueError: invalid literal for int"
        else .ok .null
      else
        match cur with
        | .obj kvs => walk rest (jGetD kvs (String.mk part) .null)
        | _ => .ok .null

/-- Plain-path resolution (`TemplateResolver._resolve_path` restricted
to paths without the filtered-array marker `.[?`): empty path is absent,
otherwise split on dots and walk. -/
def resolvePlainL (cs : List Char) (data : JVal) : Except String JVal :=
  if cs.isEmpty then .ok .null else walk (splitDot cs) data

/-- Helper for the regex model: split at the first occurrence of a
character, failing when it does not occur. -/
def splitAtFirst (sep : Char) : List Char → Option (List Char × List Char)
  | [] => none
  | c :: rest =>
      if c = sep then some ([], rest)
      else (splitAtFirst sep rest).map (fun p => (c :: p.1, p.2))

/-- The regex of `_resolve_filtered_array`,
`([^.]+)\.\[\?([^=]+)=([^\]]+)\]\.(.+)` under `re.match`, as a
deterministic parser.  Each negated character class is forced (it cannot
backtrack across its excluded character), so the groups are: BASE = text
before the first dot, which must be followed by `[?`; FIELD = text up to
the first `=` after that; VALUE = text up to the first `]` after that,
which must be followed by a dot; RESULT = the remainder, cut at the
first newline because `.` does not match newlines (and `re.match` does
not require the match to reach the end of the string).  Every group must
be non-empty. -/
def parseFilteredPath (cs : List Char) : Option (List Char × List Char × List Char × List Char) :=
  match splitAtFirst '.' cs with
  | none => none
  | some (base, r1) =>
    if base.isEmpty then none
    else if r1.take 2 = ['[', '?'] then
      match splitAtFirst '=' (r1.drop 2) with
      | none => none
      | some (field, r3) =>
        if field.isEmpty then none
        else
          match splitAtFirst ']' r3 with
          | none => none
          | some (value, r4) =>
            if value.isEmpty then none
            else if r4.take 1 = ['.'] then
              let res := (r4.drop 1).takeWhile (fun c => c != '\n')
              if res.isEmpty then none else some (base, field, value, res)
            else none
    else none

/-- The scan loop of `_resolve_filtered_array`: skip non-dict items;
the first item whose FIELD member equals VALUE (string equality) or is a
list containing VALUE yields that item's RESULT member. -/
def scanItems (fld val res : List Char) : List JVal → JVal
  | [] => .null
  | item :: rest =>
    match item with
    | .obj kvs =>
      let fieldVal := jGetD kvs (String.mk fld) .null
      if jvalEqStr fieldVal (String.mk val) then jGetD kvs (String.mk res) .null
      else if (match fieldVal with
               | .arr xs => xs.any (fun v => jvalEqStr v (String.mk val))
               | _ => false) then jGetD kvs (String.mk res) .null
      else scanItems fld val res rest
    | _ => scanItems fld val res rest

/-- Source method `TemplateResolver._resolve_filtered_array`.  The
source resolves BASE through `_resolve_path`; BASE never contains a dot
(see `parseFilteredPath`), so that call cannot re-enter the filtered
branch and equals `resolvePlainL`.  A `ValueError` raised while
resolving BASE propagates. -/
def resolveFilteredArrayL (cs : List Char) (data : JVal) : Except String JVal :=
  match parseFilteredPath cs with
  | none => .ok .null
  | some (base, fld, val, res) => do
    let arr ← resolvePlainL base data
    match arr with
    | .arr xs => pure (scanItems fld val res xs)
    | _ => pure .null

/-- Source method `TemplateResolver._resolve_path`, on a character
list. -/
def resolvePathL (cs : List Char) (data : JVal) : Except String JVal :=
  if cs.isEmpty then .ok .null
  else if hasSub ".[?".toList cs then resolveFilteredArrayL cs data
  else walk (splitDot cs) data

/-- Source method `TemplateResolver._resolve_path`, on a `String`
path. -/
def resolvePath (path : String) (data : JVal) : Except String JVal :=
  resolvePathL path.toList data

/-- The usability test of the fallback loop in `resolve.replacer`:
`val is not None and val != ""` (a non-string value always passes the
second test, since Python `==` does not coerce against `str`). -/
def usable : JVal → Bool
  | .null => false
  | .str "" => false
  | _ => true

/-- The `for part in parts` fallback loop of `resolve.replacer`: return
`str(val)` of the first usable alternative, else the empty string; an
alternative whose resolution raises propagates the exception. -/
def firstUsable : List (List Char) → JVal → Except String String
  | [], _ => .ok ""
  | p :: rest, data => do
    let val ← resolvePathL p data
    if usable val then pure (pyStr val) else firstUsable rest data

/-- Source closure `resolve.replacer` applied to one placeholder body:
strip it, split on `||`, strip each alternative, and take the first
usable value. -/
def resolveExpr (body : List Char) (data : JVal) : Except String String :=
  firstUsable ((splitBars (pyStrip body)).map pyStrip) data

/-- The substitution pass `re.sub(r"\{\{([^}]+)\}\}", replFn, template)`,
parametrised (like `re.sub` itself) by the replacer function applied to
each placeholder body: at each position, a match needs two opening
braces, a non-empty run of non-`\x7d` characters, then two closing
braces; on a match the placeholder is replaced by `replFn` of its body
and scanning resumes after it, otherwise the scanner advances one
character.  An exception raised by the replacer propagates out of the
substitution, as it does out of `re.sub`.  Fuel-indexed to stay
structurally recursive; each step consumes at least one character, so
fuel `cs.length` never runs out. -/
def substF (replFn : List Char → Except String String) : Nat → List Char → Except String (List Char)
  | 0, cs => .ok cs
  | _ + 1, [] => .ok []
  | fuel + 1, [c] => do
      let out ← substF replFn fuel []
      pure (c :: out)
  | fuel + 1, c :: d :: rest =>
    if c = '\x7b' ∧ d = '\x7b' then
      let body := rest.takeWhile (fun ch => ch != '\x7d')
      let after := rest.drop body.length
      if body.isEmpty then do
        let out ← substF replFn fuel (d :: rest)
        pure (c :: out)
      else if after.take 2 = ['\x7d', '\x7d'] then do
        let rep ← replFn body
        let out ← substF replFn fuel (after.drop 2)
        pure (rep.toList ++ out)
      else do
        let out ← substF replFn fuel (d :: rest)
        pure (c :: out)
    else do
      let out ← substF replFn fuel (d :: rest)
      pure (c :: out)

/-- Source method `TemplateResolver.resolve`: a falsy template degrades
to the empty string and a truthy non-string to its `str()`, a string
without the placeholder marker is returned unchanged, otherwise every
placeholder is substituted through the `replacer` closure over `data`;
a `ValueError` raised inside a placeholder propagates to the caller. -/
def resolve (template : JVal) (data : JVal) : Except String String :=
  match template with
  | .str s =>
    if s = "" then .ok ""
    else if strContains s "\x7b\x7b" then do
      let out ← substF (fun body => resolveExpr body data) s.toList.length s.toList
      pure (String.mk out)
    else .ok s
  | t => .ok (if pyTruthy t then pyStr t else "")

/-- Python attribute access `v.get(k, default)`: succeeds only on a
dict, raising `AttributeError` otherwise. -/
def pyGet (v : JVal) (k : String) (d : JVal) : Except String JVal :=
  match v with
  | .obj kvs => .ok (jGetD kvs k d)
  | _ => .error "AttributeError: object has no attribute get"

/-- Python `k in v` for a string key `k`: key membership on dicts,
substring test on strings, element equality on lists, `TypeError`
otherwise. -/
def pyContains (k : String) (v : JVal) : Except String Bool :=
  match v with
  | .obj kvs => .ok (jGet kvs k).isSome
  | .str s => .ok (strContains s k)
  | .arr xs => .ok (xs.any (fun e => jvalEqStr e k))
  | _ => .error "TypeError: argument is not iterable"

/-- Python subscript `v[k]` for a string key `k`: dict lookup (KeyError
when missing), `TypeError` on anything else. -/
def pySubscript (v : JVal) (k : String) : Except String JVal :=
  match v with
  | .obj kvs =>
    match jGet kvs k with
    | some x => .ok x
    | none => .error "KeyError"
  | _ => .error "TypeError: indices must be integers"

/-- The per-entry loop of `MappingStrategy._resolve_xrefs`: an entry is
skipped when its `condition` template (if present) resolves to the empty
string, and again when its `id` template resolves to the empty string;
otherwise it is emitted as an `id`/`uri`/`label` record under its own
key, with the literal config `label` defaulting to the upper-cased key.
A template whose resolution raises propagates the exception. -/
def xrefEntries (hit : JVal) : List (String × JVal) → Except String (List (String × JVal))
  | [] => .ok []
  | (db, tpl) :: rest => do
    let hasCond ← pyContains "condition" tpl
    let skip ←
      if hasCond then do
        let condTpl ← pySubscript tpl "condition"
        let condVal ← resolve condTpl hit
        pure (condVal == "")
      else pure false
    if skip then xrefEntries hit rest
    else do
      let idTpl ← pyGet tpl "id" (.str "")
      let xrefId ← resolve idTpl hit
      if xrefId = "" then xrefEntries hit rest
      else do
        let uriTpl ← pyGet tpl "uri" (.str "")
        let uriVal ← resolve uriTpl hit
        let labelVal ← pyGet tpl "label" (.str (pyUpper db))
        let restOut ← xrefEntries hit rest
        pure ((db, .obj [("id", .str xrefId), ("uri", .str uriVal), ("label", labelVal)]) :: restOut)

/-- Source method `MappingStrategy._resolve_xrefs`: iterate the xrefs
config dict in configuration order (`.items()` raises on a non-dict). -/
def resolveXrefs (hit xrefsConfig : JVal) : Except String JVal :=
  match xrefsConfig with
  | .obj entries => do
    let out ← xrefEntries hit entries
    pure (.obj out)
  | _ => .error "AttributeError: object has no attribute items"

/-- Source method `MappingStrategy._generic_map`: resolve the `label`,
`sublabel` and `id` templates against the hit, copy `scheme` literally,
and attach `xrefs` only when the config has one.  The first operation on
a non-dict config (`config.get`) raises, hence the error branch; a
template whose resolution raises propagates the exception. -/
def genericMap (hit config : JVal) : Except String JVal :=
  match config with
  | .obj kvs => do
    let labelVal ← resolve (jGetD kvs "label" (.str "")) hit
    let sublabelVal ← resolve (jGetD kvs "sublabel" (.str "")) hit
    let idVal ← resolve (jGetD kvs "id" (.str "")) hit
    let schemeVal := jGetD kvs "scheme" (.str "")
    let base := [("label", JVal.str labelVal), ("sublabel", JVal.str sublabelVal),
                 ("id", JVal.str idVal), ("scheme", schemeVal)]
    match jGet kvs "xrefs" with
    | some x => do
      let xr ← resolveXrefs hit x
      pure (.obj (base ++ [("xrefs", xr)]))
    | none => pure (.obj base)
  | _ => .error "AttributeError: object has no attribute get"

/-- Source method `MappingStrategy.flat_object`: dispatches unchanged to
the generic mapper. -/
def flat_object (hit config : JVal) : Except String JVal :=
  genericMap hit config

/-- Source method `MappingStrategy.nested_object`: dispatches unchanged
to the generic mapper. -/
def nested_object (hit config : JVal) : Except String JVal :=
  genericMap hit config

/-- Source method `MappingStrategy.array_find`: dispatches unchanged to
the generic mapper. -/
def array_find (hit config : JVal) : Except String JVal :=
  genericMap hit config

/-- Source method `MappingStrategy.obo_ontology`: fixed-field OLS
mapping.  Each `hit.get` raises on a non-dict hit.  Note that the
returned record includes a `description` member. -/
def obo_ontology (hit config : JVal) : Except String JVal := do
  let labelVal ← pyGet hit "label" (.str "?")
  let sublabelVal ← pyGet hit "obo_id" (.str "")
  let idVal ← pyGet hit "iri" (.str "")
  let schemeVal ← pyGet config "scheme" (.str "OBO")
  let descriptionVal ← pyGet hit "description" (.str "")
  pure (.obj [("label", labelVal), ("sublabel", sublabelVal), ("id", idVal),
              ("scheme", schemeVal), ("description", descriptionVal)])

/-- The module-level registry `CUSTOM_MAPPERS` holds exactly the mapper
registered in the source, `normalize_mgi`. -/
def CUSTOM_MAPPERS_keys : List String := ["normalize_mgi"]

/-- The registered custom mapper `normalize_mgi_mapper`: normalise the
MGI id (`MGI:88057` or `88057` become `MGI:88057`) and build a
fixed-shape record with verbatim `symbol` and `name` members. -/
def normalize_mgi_mapper (hit _config : JVal) : Except String JVal := do
  let mgiRaw0 ← pyGet hit "MGI" (.str "")
  let mgiRaw1 :=
    match mgiRaw0 with
    | .arr (x :: _) => x
    | .arr [] => .str ""
    | v => v
  let mgiRaw := pyStr mgiRaw1
  let mgiId :=
    if pyStartsWith mgiRaw "MGI:" then mgiRaw
    else if mgiRaw ≠ "" then "MGI:" ++ mgiRaw
    else ""
  let labelVal ← pyGet hit "symbol" (.str "?")
  let sublabelVal ← pyGet hit "name" (.str "")
  pure (.obj [("label", labelVal), ("sublabel", sublabelVal),
              ("id", .str (if mgiId ≠ "" then "https://identifiers.org/mgi:" ++ mgiId else "")),
              ("scheme", .str "MGI")])

/-- Source method `MappingStrategy.custom`: `config.get("function_name")`,
then a truthy-and-registered test.  A truthy unhashable `function_name`
(list or dict) makes the Python `in` test on the registry raise; a
registered name calls its mapper; anything else falls back to the
generic mapper. -/
def custom (hit config : JVal) : Except String JVal :=
  match config with
  | .obj kvs =>
    let fn := jGetD kvs "function_name" .null
    if pyTruthy fn then
      match fn with
      | .str s =>
        if CUSTOM_MAPPERS_keys.contains s then normalize_mgi_mapper hit config
        else genericMap hit config
      | .arr _ => .error "TypeError: unhashable type"
      | .obj _ => .error "TypeError: unhashable type"
      | _ => genericMap hit config
    else genericMap hit config
  | _ => .error "AttributeError: object has no attribute get"

/-- The attribute names `getattr(MappingStrategy, name)` finds besides
the seven methods of the class body, on the runtime the program runs on
(CPython 3.11): the union of the class's, `object`'s and `type`'s
attribute dictionaries, filtered by a successful `getattr` (the
enumeration is exhaustive because attribute lookup on a class searches
exactly the MROs of the class and of its metaclass; `__abstractmethods__`
is the one name there whose descriptor raises `AttributeError`, so it
correctly falls through to the `flat_object` default and is not
listed).  Invoking any of these with `(hit, config)` does not produce a
normalized record — most raise `TypeError`, the comparison slots return
`NotImplemented` or a boolean — and is modelled as an error, except
`__prepare__`, which really returns an empty dict and is modelled
exactly; no theorem quantifies over these names. -/
def pythonClassAttrs : List String :=
  ["__annotations__", "__base__", "__bases__", "__basicsize__", "__call__",
   "__class__", "__delattr__", "__dict__", "__dictoffset__", "__dir__",
   "__doc__", "__eq__", "__flags__", "__format__", "__ge__",
   "__getattribute__", "__getstate__", "__gt__", "__hash__", "__init__",
   "__init_subclass__", "__instancecheck__", "__itemsize__", "__le__",
   "__lt__", "__module__", "__mro__", "__name__", "__ne__", "__new__",
   "__or__", "__prepare__", "__qualname__", "__reduce__", "__reduce_ex__",
   "__repr__", "__ror__", "__setattr__", "__sizeof__", "__str__",
   "__subclasscheck__", "__subclasses__", "__subclasshook__",
   "__text_signature__", "__weakref__", "__weakrefoffset__", "mro"]

/-- Every name `getattr(MappingStrategy, ·)` can find: the five public
strategies, the two helper methods of the class body, and the implicit
class-object attributes. -/
def mappingStrategyAttrs : List String :=
  ["flat_object", "nested_object", "array_find", "obo_ontology", "custom",
   "_generic_map", "_resolve_xrefs"] ++ pythonClassAttrs

/-- The strategy dispatch of `search_api` (lines 406-409):
`getattr(MappingStrategy, strategy, MappingStrategy.flat_object)` applied
to `(hit, config)`.  The lookup also finds the class's helper methods
`_generic_map` and `_resolve_xrefs` and the implicit class-object
attributes (`type.__prepare__` called with two positional arguments
returns an empty dict; the other captured attributes do not produce a
normalized record, see `pythonClassAttrs`); only a name that is no
attribute at all falls back to `flat_object`. -/
def mapHit (strategy : String) (hit config : JVal) : Except String JVal :=
  if strategy = "flat_object" then flat_object hit config
  else if strategy = "nested_object" then nested_object hit config
  else if strategy = "array_find" then array_find hit config
  else if strategy = "obo_ontology" then obo_ontology hit config
  else if strategy = "custom" then custom hit config
  else if strategy = "_generic_map" then genericMap hit config
  else if strategy = "_resolve_xrefs" then resolveXrefs hit config
  else if strategy = "__prepare__" then .ok (.obj [])
  else if strategy ∈ pythonClassAttrs then
    .error "TypeError: class attribute is not a mapping strategy"
  else flat_object hit config

/-! ## Record-shape observers and well-typedness predicates -/

/-- Does a strategy result hold an output record with member `k`? -/
def recordHasKey (r : Except String JVal) (k : String) : Bool :=
  match r with
  | .ok (.obj kvs) => (jGet kvs k).isSome
  | _ => false

theorem splitDot_ne_nil : ∀ cs : List Char, splitDot cs ≠ [] := by
  intro cs
  cases cs with
  | nil => simp [splitDot]
  | cons c rest =>
    by_cases hc : c = '.'
    · simp [splitDot, hc]
    · simp only [splitDot, if_neg hc]
      cases splitDot rest <;> simp

theorem mapHit_unknown (s : String) (hit cfg : JVal) (h : s ∉ mappingStrategyAttrs) :
    mapHit s hit cfg = mapHit "flat_object" hit cfg := by
  simp only [mappingStrategyAttrs, List.mem_append, List.mem_cons, List.not_mem_nil,
             or_false, not_or] at h
  obtain ⟨⟨h1, h2, h3, h4, h5, h6, h7⟩, h8⟩ := h
  have h9 : ¬ s = "__prepare__" := fun hh => h8 (by rw [hh]; decide)
  unfold mapHit
  rw [if_neg h1, if_neg h2, if_neg h3, if_neg h4, if_neg h5, if_neg h6, if_neg h7,
      if_neg h9, if_neg h8, if_pos rfl]

theorem jGetD_cons_null (k : String) (rest : List (String × JVal)) (hk : jGet rest k = none)
    (p : String) : jGetD ((k, .null) :: rest) p .null = jGetD rest p .null := by
  by_cases hp : k = p
  · subst hp
    have h1 : jGet ((k, JVal.null) :: rest) k = some .null := by
      simp [jGet, List.find?_cons]
    simp [jGetD, h1, hk]
  · have h1 : jGet ((k, JVal.null) :: rest) p = jGet rest p := by
      simp [jGet, List.find?_cons, hp]
    simp [jGetD, h1]

theorem walk_cons_congr (k : String) (rest : List (String × JVal)) (hk : jGet rest k = none) :
    ∀ (part : List Char) (parts : List (List Char)),
      walk (part :: parts) (.obj ((k, .null) :: rest)) = walk (part :: parts) (.obj rest) := by
  intro part parts
  by_cases hb : bracketForm part = true
  · simp [walk, hb]
  · simp [walk, hb, jGetD_cons_null k rest hk]

theorem resolvePlainL_congr (k : String) (rest : List (String × JVal))
    (hk : jGet rest k = none) (cs : List Char) :
    resolvePlainL cs (.obj ((k, .null) :: rest)) = resolvePlainL cs (.obj rest) := by
  unfold resolvePlainL
  by_cases hcs : cs.isEmpty = true
  · simp [hcs]
  · simp only [hcs, Bool.false_eq_true, if_false]
    cases hsd : splitDot cs with
    | nil => exact absurd hsd (splitDot_ne_nil cs)
    | cons part parts => exact walk_cons_congr k rest hk part parts

theorem resolveFilteredArrayL_congr (k : String) (rest : List (String × JVal))
    (hk : jGet rest k = none) (cs : List Char) :
    resolveFilteredArrayL cs (.obj ((k, .null) :: rest)) = resolveFilteredArrayL cs (.obj rest) := by
  unfold resolveFilteredArrayL
  cases hp : parseFilteredPath cs with
  | none => rfl
  | some q =>
    obtain ⟨base, fld, val, res⟩ := q
    dsimp only
    rw [resolvePlainL_congr k rest hk base]

theorem resolvePathL_congr (k : String) (rest : List (String × JVal))
    (hk : jGet rest k = none) (cs : List Char) :
    resolvePathL cs (.obj ((k, .null) :: rest)) = resolvePathL cs (.obj rest) := by
  unfold resolvePathL
  by_cases hcs : cs.isEmpty = true
  · simp [hcs]
  · by_cases hf : hasSub ".[?".toList cs = true
    · simp only [hcs, Bool.false_eq_true, if_false, hf, if_true]
      exact resolveFilteredArrayL_congr k rest hk cs
    · simp only [hcs, hf, Bool.false_eq_true, if_false]
      cases hsd : splitDot cs with
      | nil => exact absurd hsd (splitDot_ne_nil cs)
      | cons part parts => exact walk_cons_congr k rest hk part parts

theorem firstUsable_congr (k : String) (rest : List (String × JVal))
    (hk : jGet rest k = none) :
    ∀ ps : List (List Char),
      firstUsable ps (.obj ((k, .null) :: rest)) = firstUsable ps (.obj rest) := by
  intro ps
  induction ps with
  | nil => rfl
  | cons p more ih =>
    simp only [firstUsable, resolvePathL_congr k rest hk p, ih]

theorem resolveExpr_congr (k : String) (rest : List (String × JVal))
    (hk : jGet rest k = none) (body : List Char) :
    resolveExpr body (.obj ((k, .null) :: rest)) = resolveExpr body (.obj rest) := by
  unfold resolveExpr
  exact firstUsable_congr k rest hk _

theorem resolve_congr (k : String) (rest : List (String × JVal))
    (hk : jGet rest k = none) (template : JVal) :
    resolve template (.obj ((k, .null) :: rest)) = resolve template (.obj rest) := by
  cases template with
  | str s =>
    have hfn : (fun body => resolveExpr body (.obj ((k, .null) :: rest)))
        = (fun body => resolveExpr body (.obj rest)) :=
      funext (fun body => resolveExpr_congr k rest hk body)
    simp only [resolve, hfn]
  | null => rfl
  | bool b => rfl
  | int n => rfl
  | arr xs => rfl
  | obj kvs => rfl

/-! ## The claims -/

/-- C1, counterexample: the claim says the obo_ontology record never
contains a `description` key, but on the spec's own example input
(`mapHit("obo_ontology", \x7b\x7d, \x7bscheme:"EFO"\x7d)`) the returned
record does contain one. -/
theorem claim_C1_counterexample :
    recordHasKey (mapHit "obo_ontology" (.obj []) (.obj [("scheme", .str "EFO")]))
      "description" = true := rfl

/-- C1, as amended: for every object-shaped hit and mapper
configuration, the obo_ontology strategy returns exactly the five keys
`label`, `sublabel`, `id`, `scheme`, `description`: `label` from the
hit's `label` member (default `"?"`), `sublabel` from `obo_id` (default
`""`), `id` from `iri` (default `""`), `scheme` from the configuration's
`scheme` (default `"OBO"`), and `description` from the hit's
`description` member (default `""`) — the description is emitted, not
dropped. -/
theorem claim_C1 (hkvs ckvs : List (String × JVal)) :
    mapHit "obo_ontology" (.obj hkvs) (.obj ckvs) =
      .ok (.obj [("label", jGetD hkvs "label" (.str "?")),
                 ("sublabel", jGetD hkvs "obo_id" (.str "")),
                 ("id", jGetD hkvs "iri" (.str "")),
                 ("scheme", jGetD ckvs "scheme" (.str "OBO")),
                 ("description", jGetD hkvs "description" (.str ""))]) := rfl

/-- C4, counterexample: `"_resolve_xrefs"` is not one of the five named
strategies, yet dispatching with it does not behave like `flat_object`:
`getattr` finds the class's private helper, which returns an empty
record instead of the four-field normalized record. -/
theorem claim_C4_counterexample :
    mapHit "_resolve_xrefs" (.obj []) (.obj []) ≠ mapHit "flat_object" (.obj []) (.obj []) := by
  intro h
  have h1 : mapHit "_resolve_xrefs" (.obj []) (.obj []) = .ok (.obj []) := rfl
  have h2 : mapHit "flat_object" (.obj []) (.obj []) =
      .ok (.obj [("label", .str ""), ("sublabel", .str ""),
                 ("id", .str ""), ("scheme", .str "")]) := rfl
  rw [h1, h2] at h
  simp at h

/-- C4, as amended: a strategy name that is not an attribute of the
`MappingStrategy` class object at all (so none of the five public
strategies, neither private helper `_generic_map`/`_resolve_xrefs`, and
no implicit class-object attribute of CPython 3.11, `__prepare__` and
`__or__` included) dispatches exactly like `flat_object` on every hit
and configuration; a name colliding with any class attribute is captured
by `getattr` instead of falling back. -/
theorem claim_C4 (s : String) (hit cfg : JVal) (h : s ∉ mappingStrategyAttrs) :
    mapHit s hit cfg = mapHit "flat_object" hit cfg :=
  mapHit_unknown s hit cfg h

theorem claim_C4_witness :
    ("totally_unknown" ∉ mappingStrategyAttrs) ∧
    mapHit "totally_unknown" (.obj []) (.obj []) = mapHit "flat_object" (.obj []) (.obj []) :=
  ⟨by decide, claim_C4 "totally_unknown" (.obj []) (.obj []) (by decide)⟩

/-- C5: the strategies flat_object, nested_object and array_find return
pointwise identical records on every hit and configuration — all three
are verbatim dispatches into the generic mapper. -/
theorem claim_C5 (hit cfg : JVal) :
    mapHit "flat_object" hit cfg = mapHit "nested_object" hit cfg ∧
    mapHit "nested_object" hit cfg = mapHit "array_find" hit cfg :=
  ⟨rfl, rfl⟩

/-- C8: a string template without the placeholder marker is returned
unchanged by `resolve`, for any document; consequently resolution is
idempotent as soon as a first resolution succeeds and its output is
placeholder-free. -/
theorem claim_C8 (t : String) (tv d : JVal) :
    (strContains t "\x7b\x7b" = false → resolve (.str t) d = .ok t) ∧
    (∀ r : String, resolve tv d = .ok r → strContains r "\x7b\x7b" = false →
      resolve (.str r) d = resolve tv d) := by
  have key : ∀ (r : String) (d2 : JVal), strContains r "\x7b\x7b" = false →
      resolve (.str r) d2 = .ok r := by
    intro r d2 h
    unfold resolve
    by_cases hr : r = ""
    · simp [hr]
    · simp [hr, h]
  exact ⟨key t d, fun r hok h => by rw [key r d h, hok]⟩

theorem claim_C8_witness :
    strContains "plain" "\x7b\x7b" = false ∧
    resolve (.str "plain") (.obj []) = .ok "plain" ∧
    resolve (.str "\x7b\x7ba\x7d\x7d") (.obj [("a", .str "v")]) = .ok "v" ∧
    strContains "v" "\x7b\x7b" = false ∧
    resolve (.str "v") (.obj [("a", .str "v")])
      = resolve (.str "\x7b\x7ba\x7d\x7d") (.obj [("a", .str "v")]) :=
  ⟨rfl, (claim_C8 "plain" (.str "") (.obj [])).1 rfl, rfl, rfl,
   (claim_C8 "plain" (.str "\x7b\x7ba\x7d\x7d") (.obj [("a", .str "v")])).2 "v" rfl rfl⟩

/-- C10: a JSON `null` value is indistinguishable from an absent key
throughout path resolution and template resolution: inserting a
`null`-valued binding for an otherwise-absent key changes neither any
path's resolution nor any template's resolution, so a null value is
passed over in a fallback chain exactly as a missing key is. -/
theorem claim_C10 (k : String) (rest : List (String × JVal)) (hk : jGet rest k = none) :
    (∀ path : String,
      resolvePath path (.obj ((k, .null) :: rest)) = resolvePath path (.obj rest)) ∧
    (∀ template : JVal,
      resolve template (.obj ((k, .null) :: rest)) = resolve template (.obj rest)) :=
  ⟨fun path => resolvePathL_congr k rest hk path.toList,
   fun template => resolve_congr k rest hk template⟩

theorem claim_C10_witness :
    jGet [("b", JVal.str "x")] "a" = none ∧
    resolve (.str "\x7b\x7ba || b\x7d\x7d") (.obj [("a", .null), ("b", .str "x")])
      = resolve (.str "\x7b\x7ba || b\x7d\x7d") (.obj [("b", .str "x")]) ∧
    resolve (.str "\x7b\x7ba || b\x7d\x7d") (.obj [("a", .null), ("b", .str "x")]) = .ok "x" :=
  ⟨rfl,
   (claim_C10 "a" [("b", .str "x")] rfl).2 (.str "\x7b\x7ba || b\x7d\x7d"),
   ((claim_C10 "a" [("b", .str "x")] rfl).2 (.str "\x7b\x7ba || b\x7d\x7d")).trans rfl⟩

